import Mathlib

/-!
Verification of the token-layer contracts of the banana serialization
protocol, embedded from `src/sandbox/warner/tokens.py`. Concrete code in
that file (token tag constants, `tokenNames`, `SIZE_LIMIT`, `Violation`,
`BananaError`, `UnbananaFailure`) is translated directly; behaviour that
the file only specifies through its interface docstrings (the encode and
decode engines) is modelled from the spec, each such definition marked
`Modelled from the spec:` in its doc comment.
-/

namespace Tokens

/-- Token type tag `LIST = chr(0x80)` from tokens.py. -/
def LIST : Nat := 0x80

/-- Token type tag `INT = chr(0x81)` from tokens.py. -/
def INT : Nat := 0x81

/-- Token type tag `STRING = chr(0x82)` from tokens.py. -/
def STRING : Nat := 0x82

/-- Token type tag `NEG = chr(0x83)` from tokens.py. -/
def NEG : Nat := 0x83

/-- Token type tag `FLOAT = chr(0x84)` from tokens.py. -/
def FLOAT : Nat := 0x84

/-- Token type tag `LONGINT = chr(0x85)` from tokens.py. -/
def LONGINT : Nat := 0x85

/-- Token type tag `LONGNEG = chr(0x86)` from tokens.py. -/
def LONGNEG : Nat := 0x86

/-- Token type tag `VOCAB = chr(0x87)` from tokens.py. -/
def VOCAB : Nat := 0x87

/-- Token type tag `OPEN = chr(0x88)` from tokens.py. -/
def OPEN : Nat := 0x88

/-- Token type tag `CLOSE = chr(0x89)` from tokens.py. -/
def CLOSE : Nat := 0x89

/-- Token type tag `ABORT = chr(0x8A)` from tokens.py. -/
def ABORT : Nat := 0x8A

/-- Token type tag `ERROR = chr(0x8D)` from tokens.py. -/
def ERROR : Nat := 0x8D

/-- The twelve token type tags, in the order tokens.py declares them. -/
def tokenTags : List Nat :=
  [LIST, INT, STRING, NEG, FLOAT, LONGINT, LONGNEG, VOCAB, OPEN, CLOSE, ABORT, ERROR]

/-- The `tokenNames` dictionary of tokens.py, as an association list
(entries in the dictionary's order). -/
def tokenNames : List (Nat × String) :=
  [(LIST, "LIST"), (INT, "INT"), (STRING, "STRING"), (NEG, "NEG"),
   (FLOAT, "FLOAT"), (LONGINT, "LONGINT"), (LONGNEG, "LONGNEG"),
   (VOCAB, "VOCAB"), (OPEN, "OPEN"), (CLOSE, "CLOSE"), (ABORT, "ABORT"),
   (ERROR, "ERROR")]

/-- `SIZE_LIMIT = 1000` from tokens.py: the default limit on the body length
of long tokens (STRING, LONGINT, LONGNEG, ERROR). -/
def SIZE_LIMIT : Nat := 1000

/-- `BananaError` from tokens.py: raised for a fundamental protocol
violation; the connection should be dropped immediately. Its class
attribute `where = None` is an optional description of the failing node. -/
structure BananaError where
  args : List String
  whereLoc : Option String := none

mutual

/-- `Violation` from tokens.py: raised for a schema violation. Carries the
exception `args`, the class attribute `where = None` (here `whereLoc`,
since `where` is reserved in Lean), and the `.failure` attribute set by
`__init__` from the `failure` keyword argument. -/
inductive Violation : Type where
  | mk (args : List String) (whereLoc : Option String) (failure : Option UnbananaFailure)

/-- `UnbananaFailure` from tokens.py: a Failure subclass wrapping an
exception `exc`, whose `__init__` records the object-graph pathname
`where` (here `whereLoc`). -/
inductive UnbananaFailure : Type where
  | mk (exc : Exc) (whereLoc : String)

/-- An exception value as wrapped by a Failure: a `Violation`, a
`BananaError`, or any other exception (abstracted to its message). -/
inductive Exc : Type where
  | viol (v : Violation)
  | banana (b : BananaError)
  | other (msg : String)

end

/-- Projection for the `args` attribute of a `Violation`. -/
def Violation.args : Violation → List String
  | .mk a _ _ => a

/-- Projection for the `where` attribute of a `Violation`. -/
def Violation.whereLoc : Violation → Option String
  | .mk _ w _ => w

/-- Projection for the `failure` attribute of a `Violation`. -/
def Violation.failure : Violation → Option UnbananaFailure
  | .mk _ _ f => f

/-- `Violation.__init__` from tokens.py: `Exception.__init__(self, *args)`
stores the args, `self.failure = kwargs.get("failure", None)` stores the
keyword argument, and the class attribute leaves `where` as `None`. -/
def Violation.init (args : List String) (failureKw : Option UnbananaFailure) : Violation :=
  .mk args none failureKw

/-- `Violation.setLocation` from tokens.py:
`if self.where is None: self.where = where`. -/
def Violation.setLocation (v : Violation) (w : String) : Violation :=
  match v.whereLoc with
  | none => .mk v.args (some w) v.failure
  | some _ => v

/-- Projection for the wrapped exception of an `UnbananaFailure`. -/
def UnbananaFailure.exc : UnbananaFailure → Exc
  | .mk e _ => e

/-- Projection for the `where` attribute of an `UnbananaFailure`. -/
def UnbananaFailure.whereLoc : UnbananaFailure → String
  | .mk _ w => w

/-- `UnbananaFailure.__init__` from tokens.py: `self.where = where` then
`Failure.__init__(self, exc)`. -/
def UnbananaFailure.init (exc : Exc) (whereLoc : String) : UnbananaFailure :=
  .mk exc whereLoc

/-- C9: the twelve token type tags are pairwise-distinct single bytes in
the range 0x80 to 0x8D, and `tokenNames` assigns every one of them a name,
with all twelve names distinct (so the mapping is total on the tag set and
injective). -/
theorem c9_token_tags_distinct_and_named :
    tokenTags.Nodup ∧
    (∀ t ∈ tokenTags, 0x80 ≤ t ∧ t ≤ 0x8D) ∧
    tokenNames.map Prod.fst = tokenTags ∧
    (tokenNames.map Prod.snd).Nodup := by
  decide

/-- C2: a freshly constructed Violation has no location; after
`setLocation w1` then `setLocation w2` its location is `w1` (the first
setter wins); and once a location is set, no later `setLocation` call
overwrites it. -/
theorem c2_violation_first_setter_wins (args : List String)
    (f : Option UnbananaFailure) (w1 w2 : String) :
    (Violation.init args f).whereLoc = none ∧
    (((Violation.init args f).setLocation w1).setLocation w2).whereLoc = some w1 ∧
    ∀ (v : Violation) (w w0 : String),
      v.whereLoc = some w0 → (v.setLocation w).whereLoc = some w0 := by
  refine ⟨rfl, rfl, ?_⟩
  intro v w w0 h
  cases v with
  | mk a wl fl =>
    cases wl with
    | none => simp [Violation.whereLoc] at h
    | some w1 => simpa [Violation.setLocation, Violation.whereLoc] using h

/-- C5: constructing a Violation with `failure=f` stores exactly `f` in the
resulting `.failure` attribute, so re-raising a child's failure propagates
the original UnbananaFailure rather than a fresh wrapper. -/
theorem c5_violation_stores_failure (args : List String) (f : UnbananaFailure) :
    (Violation.init args (some f)).failure = some f := rfl

/-- C10: constructing `UnbananaFailure(exc, where)` sets the resulting
`.where` attribute to exactly the given string, fixed at construction time
(the module defines no operation that modifies it; in this pure embedding
every operation on an `UnbananaFailure` reads it unchanged). -/
theorem c10_unbanana_failure_where_fixed (exc : Exc) (w : String) :
    (UnbananaFailure.init exc w).whereLoc = w ∧
    (UnbananaFailure.init exc w).exc = exc := ⟨rfl, rfl⟩

/-- The two kinds of failure a token check can produce: a recoverable
`Violation` or a connection-fatal `BananaError` (ProtocolError). -/
inductive CheckFail where
  | violation
  | protocolError
deriving DecidableEq

/-- The long-token tags (STRING, LONGINT, LONGNEG, ERROR): tags whose
payload length is not fixed by the tag, preceded by a size header. -/
def longTokenTags : List Nat := [STRING, LONGNEG, LONGINT, ERROR]

/-- A schema constraint attached to an unslicer node: the token tags it
accepts and its limit on long-token body sizes. -/
structure Constraint where
  allowedTags : List Nat
  sizeLimit : Nat

/-- Modelled from the spec: the `IUnslicer.checkToken` contract (the
concrete unslicer implementations live in the engine, which is not under
src/; tokens.py only states the contract). A tag outside the legal
vocabulary is a fundamental wire-format disagreement and is a
ProtocolError; with a constraint in effect, a tag the constraint refuses,
or a long token whose declared size exceeds the constraint's limit, is a
Violation; with no constraint in effect every legal token is accepted. -/
def checkToken (typebyte size : Nat) (constraint : Option Constraint) :
    Except CheckFail Unit :=
  if typebyte ∈ tokenTags then
    match constraint with
    | none => .ok ()
    | some c =>
      if typebyte ∈ c.allowedTags then
        if typebyte ∈ longTokenTags ∧ c.sizeLimit < size then .error .violation
        else .ok ()
      else .error .violation
  else .error .protocolError

/-- C3: checkToken classifies a type byte outside the legal vocabulary as a
ProtocolError (never a Violation) whatever constraint is in effect, and
with no constraint in effect it never produces a Violation for any token. -/
theorem c3_illegal_tag_is_protocol_error (typebyte size : Nat)
    (c : Option Constraint) :
    (typebyte ∉ tokenTags → checkToken typebyte size c = .error .protocolError) ∧
    checkToken typebyte size none ≠ .error .violation := by
  constructor
  · intro h
    simp [checkToken, h]
  · by_cases h : typebyte ∈ tokenTags <;> simp [checkToken, h]

/-- Modelled from the spec: the header-stage size check for long tokens,
the single chokepoint that bounds memory (the engine performing it is not
under src/). A long token's declared size is checked against the tighter
constraint limit when one exists, and against the fixed default
`SIZE_LIMIT` otherwise; an oversized declaration is a Violation. -/
def checkLongTokenSize (typebyte size : Nat) (constraintLimit : Option Nat) :
    Except CheckFail Unit :=
  if typebyte ∈ longTokenTags ∧ constraintLimit.getD SIZE_LIMIT < size then
    .error .violation
  else .ok ()

/-- Modelled from the spec: body bytes of a long token are buffered only
after the header check accepts the declared size. -/
def decodeLongToken (typebyte size : Nat) (constraintLimit : Option Nat)
    (body : List Nat) : Except CheckFail (List Nat) :=
  match checkLongTokenSize typebyte size constraintLimit with
  | .error e => .error e
  | .ok _ => .ok (body.take size)

/-- C4: the default limit applied to long-token body lengths when no
tighter constraint exists is the fixed constant 1000, and a long token
declaring a larger size is rejected with a Violation whatever body bytes
follow — the rejection happens before any body byte is buffered. -/
theorem c4_default_size_limit (typebyte size : Nat) :
    SIZE_LIMIT = 1000 ∧
    (typebyte ∈ longTokenTags → SIZE_LIMIT < size →
      ∀ body : List Nat,
        decodeLongToken typebyte size none body = .error .violation) := by
  refine ⟨rfl, ?_⟩
  intro htag hsize body
  simp [decodeLongToken, checkLongTokenSize, htag, hsize]

/-- A send-side event: either a structure OPEN token is emitted, or any
other token is. -/
inductive SendEvent where
  | openTok
  | otherTok
deriving DecidableEq

/-- The number of OPEN tokens in a send-side event stream. -/
def countOpens : List SendEvent → Nat
  | [] => 0
  | .openTok :: rest => countOpens rest + 1
  | .otherTok :: rest => countOpens rest

/-- Encode-side reference bookkeeping: the cumulative count of OPEN tokens
sent over this connection direction, and the reference ids passed to
`registerReference`, in order of assignment. -/
structure SendState where
  openCount : Nat
  assigned : List Nat

/-- Modelled from the spec: the `ISlicer.registerReference` contract says a
refid is a number taken from the cumulative count of OPEN tokens sent over
the connection, 0 being the object of the very first OPEN (the engine
assigning them is not under src/). Emitting an OPEN registers the current
cumulative count as the new structure's refid, then increments it. -/
def sendStep (s : SendState) : SendEvent → SendState
  | .openTok => { openCount := s.openCount + 1, assigned := s.assigned ++ [s.openCount] }
  | .otherTok => s

/-- Run the send-side bookkeeping over a token stream, starting from a
fresh connection direction. -/
def sendRun (events : List SendEvent) : SendState :=
  events.foldl sendStep { openCount := 0, assigned := [] }

/-- Helper: from any state, folding `sendStep` appends the consecutive
range of refids starting at the current cumulative OPEN count. -/
theorem sendRun_foldl (events : List SendEvent) (s : SendState) :
    events.foldl sendStep s =
      { openCount := s.openCount + countOpens events,
        assigned := s.assigned ++ List.range' s.openCount (countOpens events) } := by
  induction events generalizing s with
  | nil => simp [countOpens]
  | cons e rest ih =>
    cases e with
    | openTok =>
      rw [List.foldl_cons, ih]
      simp only [sendStep, SendState.mk.injEq]
      constructor
      · show s.openCount + 1 + countOpens rest = s.openCount + (countOpens rest + 1)
        omega
      · show (s.assigned ++ [s.openCount]) ++ List.range' (s.openCount + 1) (countOpens rest) =
          s.assigned ++ List.range' s.openCount (countOpens rest + 1)
        rw [List.append_assoc, List.range'_succ]
        rfl
    | otherTok =>
      rw [List.foldl_cons, ih]
      rfl

/-- C6: over any token stream on one connection direction, the refids
passed to registerReference are exactly 0, 1, 2, ... — one per OPEN token,
each equal to the cumulative count of OPEN tokens sent before that
structure's own OPEN — so they are strictly increasing (hence unique), and
refid 0 names the object of the very first OPEN. -/
theorem c6_refids_strictly_increase (events : List SendEvent) :
    (sendRun events).assigned = List.range (countOpens events) ∧
    (sendRun events).openCount = countOpens events ∧
    List.Pairwise (· < ·) (sendRun events).assigned ∧
    ((sendRun events).assigned ≠ [] → (sendRun events).assigned.head? = some 0) := by
  have h : sendRun events =
      { openCount := countOpens events,
        assigned := List.range' 0 (countOpens events) } := by
    simpa using sendRun_foldl events { openCount := 0, assigned := [] }
  rw [h, show List.range' 0 (countOpens events) = List.range (countOpens events) from
    (List.range_eq_range' (countOpens events)).symm]
  refine ⟨rfl, rfl, List.pairwise_lt_range _, ?_⟩
  intro hne
  cases hk : countOpens events with
  | zero => simp [hk] at hne
  | succ k => simp [hk, List.range_succ_eq_map]

/-- Result of a slicer attempting to suspend token production: either the
suspension is granted, or it is a fatal condition for the connection. -/
inductive SuspendResult where
  | suspended
  | fatal
deriving DecidableEq

/-- Whether every slicer in a chain of stacked slicers (root first, each
entry that slicer's `streamable` flag) permits streaming. -/
def chainStreamable (chain : List Bool) : Bool := chain.all id

/-- Modelled from the spec: the `streamable` flag a child slicer is
started under. Streaming is only allowed if the parent also allows
streaming: when `slice()` is called with `streamable=False` the child's
own flag must be `False` for that slice, so the effective flag is the
conjunction of the enclosing chain's permission and the child's own. -/
def childEffStreamable (parentChain : List Bool) (own : Bool) : Bool :=
  chainStreamable parentChain && own

/-- Modelled from the spec: a suspension attempt (yielding a Deferred) by
the slicer at the top of the chain. It is granted only when the whole
chain permits streaming; under a non-streamable enclosing slicer it is a
fatal condition on the encode side, never silently allowed. -/
def attemptSuspend (chain : List Bool) : SuspendResult :=
  if chainStreamable chain then .suspended else .fatal

/-- C7: a slicer started under a non-streamable chain is itself
non-streamable whatever its own flag says; a suspension attempt under a
chain containing any non-streamable slicer is fatal; and conversely a
granted suspension means every enclosing slicer was streamable. -/
theorem c7_streaming_permission_chain (chain : List Bool) (own : Bool) :
    (chainStreamable chain = false → childEffStreamable chain own = false) ∧
    (false ∈ chain → attemptSuspend chain = .fatal) ∧
    (attemptSuspend chain = .suspended → ∀ b ∈ chain, b = true) := by
  refine ⟨?_, ?_, ?_⟩
  · intro h
    simp [childEffStreamable, h]
  · intro h
    have hc : chainStreamable chain = false := by
      rw [chainStreamable, List.all_eq_false]
      exact ⟨false, h, by simp⟩
    simp [attemptSuspend, hc]
  · intro h b hb
    by_cases hc : chainStreamable chain = true
    · have := List.all_eq_true.mp hc b hb
      simpa using this
    · simp [attemptSuspend, hc] at h

/-- One frame of the encode stack: its `sendOpen` flag and whether it is
the root slicer. -/
structure SlicerNode where
  sendOpen : Bool
  isRoot : Bool

/-- Modelled from the spec: the root slicer, the one slicer whose body is
not wrapped in an OPEN/CLOSE pair, so `sendOpen` is false. -/
def rootSlicer : SlicerNode := { sendOpen := false, isRoot := true }

/-- Modelled from the spec: every non-root slicer wraps its body tokens in
an OPEN/CLOSE token pair, so `sendOpen` is true. -/
def childSlicer : SlicerNode := { sendOpen := true, isRoot := false }

/-- Modelled from the spec: the encode stacks reachable during slicing —
the stack starts as just the root slicer, pushes a child slicer for each
nested object, and pops a finished child (never the root). The list is top
first, root last. -/
inductive SlicerStack : List SlicerNode → Prop where
  | root : SlicerStack [rootSlicer]
  | push (st : List SlicerNode) : SlicerStack st → SlicerStack (childSlicer :: st)
  | pop (s : SlicerNode) (st : List SlicerNode) :
      SlicerStack (s :: st) → st ≠ [] → SlicerStack st

/-- Helper: the last element of a nonempty list is unchanged by a cons. -/
theorem lastOfCons {α : Type} (a : α) (l : List α) (h : l ≠ []) :
    (a :: l).getLast? = l.getLast? := by
  cases l with
  | nil => exact absurd rfl h
  | cons b t => simp [List.getLast?_cons_cons]

/-- C8: on every reachable encode stack, the root slicer sits at the
bottom, and a slicer's `sendOpen` flag is false exactly when it is the
root — every non-root slicer on the stack has `sendOpen` true. -/
theorem c8_sendOpen_false_only_for_root (st : List SlicerNode)
    (h : SlicerStack st) :
    st.getLast? = some rootSlicer ∧
    ∀ s ∈ st, (s.sendOpen = false ↔ s = rootSlicer) := by
  induction h with
  | root =>
    refine ⟨rfl, ?_⟩
    intro s hs
    rw [List.mem_singleton] at hs
    subst hs
    simp [rootSlicer]
  | push st hst ih =>
    obtain ⟨hlast, hmem⟩ := ih
    have hne : st ≠ [] := by
      intro hnil
      rw [hnil] at hlast
      simp at hlast
    refine ⟨?_, ?_⟩
    · rw [lastOfCons childSlicer st hne]
      exact hlast
    · intro s hs
      rcases List.mem_cons.mp hs with hs | hs
      · subst hs
        constructor
        · intro hfalse
          simp [childSlicer] at hfalse
        · intro heq
          have : childSlicer.isRoot = rootSlicer.isRoot := by rw [heq]
          simp [childSlicer, rootSlicer] at this
      · exact hmem s hs
  | pop s st hst hne ih =>
    obtain ⟨hlast, hmem⟩ := ih
    refine ⟨?_, ?_⟩
    · rw [lastOfCons s st hne] at hlast
      exact hlast
    · intro x hx
      exact hmem x (List.mem_cons_of_mem s hx)

/-- A decode-side wire token, abstracted to what the error taxonomy needs:
a structure OPEN, a structure CLOSE, a body token carrying a value, or a
byte outside the legal tag vocabulary. -/
inductive DTok where
  | dopen
  | dclose
  | leaf (n : Nat)
  | bad

/-- A decoded value accumulated by an unslicer frame: a primitive, a
finished composite, or a propagated failure. -/
inductive DVal where
  | prim (n : Nat)
  | node (children : List DVal)
  | fail (u : UnbananaFailure)

/-- Decode-side engine state: the active constraint limit on body values,
the unslicer stack (top first, each frame its accumulated children),
the discard mode entered when a Violation abandons a subtree (nesting
depth still open in the abandoned subtree, plus the pending Violation),
and whether a ProtocolError has dropped the connection. -/
structure DecState where
  limit : Nat
  stack : List (List DVal)
  discard : Option (Nat × Violation)
  dead : Bool

/-- The Violation raised when a body token fails the active constraint. -/
def leafViolation (n : Nat) : Violation :=
  Violation.init ["unacceptable token: " ++ toString n] none

/-- The UnbananaFailure handed to the enclosing frame in lieu of the
abandoned child object: it wraps the Violation that killed the subtree. -/
def ubfOf (v : Violation) : UnbananaFailure :=
  UnbananaFailure.init (Exc.viol v) ""

/-- Hand a child value to the enclosing unslicer frame, the
`receiveChild` of the stack's top frame. -/
def receiveChild (stack : List (List DVal)) (c : DVal) : List (List DVal) :=
  match stack with
  | top :: rest => (top ++ [c]) :: rest
  | [] => []

/-- Modelled from the spec: one decode step of the engine (banana.py is
not under src/; tokens.py states the contract in the Violation and
BananaError docstrings and the IUnslicer comments). A dead connection
processes nothing. In discard mode, tokens of the abandoned subtree are
dropped while nesting depth is tracked, until the subtree's own CLOSE,
where the enclosing frame receives an UnbananaFailure wrapping the
Violation via receiveChild; an illegal tag is fatal even then. In normal
mode, an illegal tag or an unmatched CLOSE is a ProtocolError that drops
the connection, OPEN pushes a fresh frame, CLOSE pops the finished frame
and hands its object to the parent, and a body token failing the
constraint raises a Violation: its frame is abandoned on the spot and
discard mode begins. -/
def decStep (s : DecState) (t : DTok) : DecState :=
  if s.dead then s
  else
    match s.discard with
    | some (d, v) =>
      match t with
      | .dopen => { s with discard := some (d + 1, v) }
      | .dclose =>
        match d with
        | 0 =>
          { s with
            discard := none
            stack := receiveChild s.stack (DVal.fail (ubfOf v)) }
        | d' + 1 => { s with discard := some (d', v) }
      | .leaf _ => s
      | .bad => { s with dead := true }
    | none =>
      match t with
      | .bad => { s with dead := true }
      | .dopen => { s with stack := [] :: s.stack }
      | .dclose =>
        match s.stack with
        | top :: rest => { s with stack := receiveChild rest (DVal.node top) }
        | [] => { s with dead := true }
      | .leaf n =>
        if n ≤ s.limit then { s with stack := receiveChild s.stack (DVal.prim n) }
        else { s with stack := s.stack.tail, discard := some (0, leafViolation n) }

/-- Run the decode engine over a token list. -/
def processAll (s : DecState) (ts : List DTok) : DecState := ts.foldl decStep s

/-- The well-formed remainders of a subtree's token stream: a sequence of
complete elements, each a body token or a balanced OPEN/CLOSE structure. -/
inductive SubtreeToks : List DTok → Prop where
  | nil : SubtreeToks []
  | leaf (n : Nat) (ts : List DTok) : SubtreeToks ts →
      SubtreeToks (DTok.leaf n :: ts)
  | node (inner ts : List DTok) : SubtreeToks inner → SubtreeToks ts →
      SubtreeToks (DTok.dopen :: (inner ++ (DTok.dclose :: ts)))

/-- Helper: in discard mode, a well-formed partial subtree is dropped
without any effect on the engine state. -/
theorem processAll_discard (ts : List DTok) (hts : SubtreeToks ts) :
    ∀ (s : DecState) (d : Nat) (v : Violation),
      s.dead = false → s.discard = some (d, v) → processAll s ts = s := by
  induction hts with
  | nil => intro s d v _ _; rfl
  | leaf n ts hts ih =>
    intro s d v hdead hdisc
    have hstep : decStep s (DTok.leaf n) = s := by
      simp [decStep, hdead, hdisc]
    rw [processAll, List.foldl_cons, hstep]
    exact ih s d v hdead hdisc
  | node inner ts hinner hts ih1 ih2 =>
    intro s d v hdead hdisc
    obtain ⟨lim, stk, disc, dead⟩ := s
    simp only at hdead hdisc
    subst hdead hdisc
    rw [processAll, List.foldl_cons]
    have hopen : decStep ⟨lim, stk, some (d, v), false⟩ DTok.dopen =
        ⟨lim, stk, some (d + 1, v), false⟩ := by
      simp [decStep]
    rw [hopen, List.foldl_append]
    have habs : List.foldl decStep ⟨lim, stk, some (d + 1, v), false⟩ inner =
        ⟨lim, stk, some (d + 1, v), false⟩ := ih1 _ (d + 1) v rfl rfl
    rw [habs, List.foldl_cons]
    have hclose : decStep ⟨lim, stk, some (d + 1, v), false⟩ DTok.dclose =
        ⟨lim, stk, some (d, v), false⟩ := by
      simp [decStep]
    rw [hclose]
    exact ih2 _ d v rfl rfl

/-- C1: the two-tier failure taxonomy of the decode side. When a body
token raises a Violation, the current frame is abandoned at once, every
remaining token of that subtree (and everything nested under it) is
discarded, and at the subtree's CLOSE the enclosing frame receives, via
receiveChild, an UnbananaFailure wrapping the Violation — the engine stays
alive. When a BananaError (ProtocolError) is raised, the connection is
dropped immediately and no further token changes the state at all. -/
theorem c1_failure_taxonomy (s : DecState) (top parent : List DVal)
    (rest : List (List DVal)) (n : Nat) (ts : List DTok)
    (hdead : s.dead = false) (hdisc : s.discard = none)
    (hstack : s.stack = top :: parent :: rest)
    (hlim : s.limit < n) (hts : SubtreeToks ts) :
    (decStep s (DTok.leaf n)).stack = parent :: rest ∧
    (decStep s (DTok.leaf n)).discard = some (0, leafViolation n) ∧
    (decStep s (DTok.leaf n)).dead = false ∧
    processAll (decStep s (DTok.leaf n)) (ts ++ [DTok.dclose]) =
      { s with stack := (parent ++ [DVal.fail (ubfOf (leafViolation n))]) :: rest,
               discard := none } ∧
    (decStep s DTok.bad).dead = true ∧
    (∀ (sd : DecState) (t : DTok), sd.dead = true → decStep sd t = sd) := by
  obtain ⟨lim, stk, disc, dead⟩ := s
  simp only at hdead hdisc hstack hlim
  subst hdead hdisc hstack
  have hn : ¬ (n ≤ lim) := Nat.not_le.mpr hlim
  have hstep : decStep ⟨lim, top :: parent :: rest, none, false⟩ (DTok.leaf n) =
      ⟨lim, parent :: rest, some (0, leafViolation n), false⟩ := by
    simp [decStep, hn]
  refine ⟨by rw [hstep], by rw [hstep], by rw [hstep], ?_, by simp [decStep], ?_⟩
  · rw [hstep, processAll, List.foldl_append]
    have habs : List.foldl decStep ⟨lim, parent :: rest, some (0, leafViolation n), false⟩ ts =
        ⟨lim, parent :: rest, some (0, leafViolation n), false⟩ :=
      processAll_discard ts hts _ 0 (leafViolation n) rfl rfl
    rw [habs, List.foldl_cons]
    simp [decStep, receiveChild]
  · intro sd t h
    simp [decStep, h]

/-- A concrete decoder state for the C1 witness: constraint limit 5, two
open frames, alive and not discarding. -/
def c1State : DecState := { limit := 5, stack := [[], []], discard := none, dead := false }

/-- A concrete well-formed subtree remainder for the C1 witness. -/
def c1Toks : List DTok := [DTok.leaf 1, DTok.dopen, DTok.dclose]

/-- Witness for C1 at a concrete state: the oversized body token 9 under
limit 5 abandons the top frame, the subtree remainder is discarded, and
the enclosing frame ends up holding the UnbananaFailure. -/
theorem c1_failure_witness :
    (decStep c1State (DTok.leaf 9)).stack = [([] : List DVal)] ∧
    (decStep c1State (DTok.leaf 9)).discard = some (0, leafViolation 9) ∧
    (decStep c1State (DTok.leaf 9)).dead = false ∧
    processAll (decStep c1State (DTok.leaf 9)) (c1Toks ++ [DTok.dclose]) =
      { c1State with
        stack := [([] : List DVal) ++ [DVal.fail (ubfOf (leafViolation 9))]],
        discard := none } ∧
    (decStep c1State DTok.bad).dead = true ∧
    (∀ (sd : DecState) (t : DTok), sd.dead = true → decStep sd t = sd) :=
  c1_failure_taxonomy c1State [] [] [] 9 c1Toks rfl rfl rfl (by decide)
    (SubtreeToks.leaf 1 _ (SubtreeToks.node [] [] SubtreeToks.nil SubtreeToks.nil))

/-- Witness for C8 at the concrete stack of one child above the root. -/
theorem c8_sendOpen_witness :
    [childSlicer, rootSlicer].getLast? = some rootSlicer ∧
    ∀ s ∈ [childSlicer, rootSlicer], (s.sendOpen = false ↔ s = rootSlicer) :=
  c8_sendOpen_false_only_for_root [childSlicer, rootSlicer]
    (SlicerStack.push [rootSlicer] SlicerStack.root)

end Tokens
